import Mathlib

/-!
Verification of the credential-manager and ad-blocking subsystems of the
your-browser repository, shallowly embedded in Lean 4.

The embedding follows the JavaScript source:
  * the CredentialManager class (credential store, never-save set, crypto
    envelope, load path);
  * the AdBlocker class (block decision engine, whitelist, counters,
    settings persistence) and the onBeforeRequest interception handler.

External platform facilities (the WHATWG URL parser, the OS safeStorage
facility, the AES-256-GCM primitive, the localStorage cell) are modelled
as explicit parameters or state components; everything the repository
itself implements is translated directly.

JavaScript exceptions are modelled with Option: a try/catch whose catch
arm returns a default becomes a total function returning that default.
-/

namespace YourBrowser

/-! ## List and string utilities

JavaScript String.prototype.includes, modelled on character lists so that
all definitions reduce in the kernel. -/

/-- Does the list start with the pattern (first argument)? -/
def isPrefixOfL : List Char → List Char → Bool
  | [], _ => true
  | _ :: _, [] => false
  | a :: as, b :: bs => a == b && isPrefixOfL as bs

/-- JavaScript String.prototype.includes on character lists:
the second list contains the first as a contiguous run. -/
def listIncludes (pat : List Char) : List Char → Bool
  | [] => pat.isEmpty
  | c :: cs => isPrefixOfL pat (c :: cs) || listIncludes pat cs

/-- ASCII model of String.prototype.toLowerCase (every URL and pattern in
the source's lists is ASCII apart from one CJK literal, which is unaffected). -/
def lowerL (l : List Char) : List Char := l.map Char.toLower

/-- Association-list lookup, modelling JavaScript Map.prototype.get. -/
def mapGet {α : Type} : List (String × α) → String → Option α
  | [], _ => none
  | (k, v) :: rest, key => if k == key then some v else mapGet rest key

/-- Association-list update, modelling JavaScript Map.prototype.set
(replaces the entry when the key is present, appends otherwise). -/
def mapSet {α : Type} : List (String × α) → String → α → List (String × α)
  | [], key, v => [(key, v)]
  | (k, w) :: rest, key, v =>
    if k == key then (key, v) :: rest else (k, w) :: mapSet rest key v

/-- Association-list removal, modelling JavaScript Map.prototype.delete. -/
def mapDelete {α : Type} : List (String × α) → String → List (String × α)
  | [], _ => []
  | (k, w) :: rest, key =>
    if k == key then rest else (k, w) :: mapDelete rest key

/-- JavaScript Set.prototype.add on a duplicate-free list
(insertion order preserved, no duplicate inserted). -/
def addToSet (s : List String) (x : String) : List String :=
  if s.contains x then s else s ++ [x]

/-! ## CredentialManager data model (src/unnamed/part_001)

`credentialsCache` is the Map from origin to the array of credential
records; `neverSaveSites` is the never-save Set. -/

/-- One stored credential record, as built by
CredentialManager.saveCredential (lines 302-307). -/
structure Cred where
  username : String
  password : String
  createdAt : Nat
  updatedAt : Nat
deriving DecidableEq

/-- The mutable state held by a CredentialManager instance. -/
structure CMState where
  credentialsCache : List (String × List Cred)
  neverSaveSites : List String
deriving DecidableEq

/-- The state right after the constructor's field initialisers
(empty cache, empty never-save set), before any load from disk. -/
def CMState.initial : CMState := { credentialsCache := [], neverSaveSites := [] }

/-- CredentialManager._getOrigin (lines 214-221): parse the URL with the
platform URL parser and return protocol//host, or none when parsing throws.
The platform parser is the explicit parameter: it yields the protocol
(with trailing colon) and the host of a URL string, when the string parses. -/
def getOrigin (parseURL : String → Option (String × String)) (url : String) :
    Option String :=
  match parseURL url with
  | some pr => some (pr.1 ++ "//" ++ pr.2)
  | none => none

/-- The list-level core of CredentialManager.saveCredential (lines 297-317):
replace the first record whose username matches (preserving its createdAt,
refreshing updatedAt), or append a fresh record when none matches.  This is
the findIndex-then-assign-or-push of the source expressed recursively. -/
def saveList (username password : String) (now : Nat) : List Cred → List Cred
  | [] => [{ username := username, password := password,
             createdAt := now, updatedAt := now }]
  | c :: cs =>
    if c.username == username then
      { username := username, password := password,
        createdAt := c.createdAt, updatedAt := now } :: cs
    else
      c :: saveList username password now cs

/-- CredentialManager.saveCredential (lines 293-323).  `now` stands for
Date.now() at the moment of the call.  Returns the new state and the
function's boolean result.  Note the source performs no validation of
username or password. -/
def saveCredential (parseURL : String → Option (String × String))
    (st : CMState) (url username password : String) (now : Nat) :
    CMState × Bool :=
  match getOrigin parseURL url with
  | none => (st, false)
  | some origin =>
    let credentials := (mapGet st.credentialsCache origin).getD []
    ({ st with credentialsCache :=
         mapSet st.credentialsCache origin (saveList username password now credentials) },
     true)

/-- The record shape returned by CredentialManager.getCredentials
(lines 338-343). -/
structure AutofillCred where
  username : String
  password : String
  origin : String
  displayName : String
deriving DecidableEq

/-- CredentialManager._maskUsername (lines 349-357). -/
def maskUsername (username : String) : String :=
  if username.toList.contains '@' then
    let parts := username.splitOn ("@")
    let name := parts.headD ("")
    let domain := (parts.drop 1).headD ("")
    if name.length ≤ 2 then username
    else name.take 2 ++ "***@" ++ domain
  else if username.length ≤ 3 then username
  else username.take 3 ++ "***"

/-- CredentialManager.getCredentials (lines 328-344): the autofill getter.
Returns the records for the URL's origin with username and cleartext
password, plus the origin and a masked display name. -/
def getCredentials (parseURL : String → Option (String × String))
    (st : CMState) (url : String) : List AutofillCred :=
  match getOrigin parseURL url with
  | none => []
  | some origin =>
    ((mapGet st.credentialsCache origin).getD []).map fun c =>
      { username := c.username, password := c.password, origin := origin,
        displayName := maskUsername c.username }

/-- CredentialManager.shouldPromptSave (lines 226-230). -/
def shouldPromptSave (parseURL : String → Option (String × String))
    (st : CMState) (url : String) : Bool :=
  match getOrigin parseURL url with
  | none => false
  | some origin => !(st.neverSaveSites.contains origin)

/-- CredentialManager.neverSaveForSite (lines 235-242): add the URL's
origin to the never-save set (persisting the set is a side effect on disk
with no effect on the in-memory state modelled here). -/
def neverSaveForSite (parseURL : String → Option (String × String))
    (st : CMState) (url : String) : CMState :=
  match getOrigin parseURL url with
  | none => st
  | some origin => { st with neverSaveSites := addToSet st.neverSaveSites origin }

/-- CredentialManager.enableSaveForSite (lines 247-254): remove the URL's
origin from the never-save set. -/
def enableSaveForSite (parseURL : String → Option (String × String))
    (st : CMState) (url : String) : CMState :=
  match getOrigin parseURL url with
  | none => st
  | some origin =>
    { st with neverSaveSites := st.neverSaveSites.filter (fun x => x != origin) }

/-- CredentialManager.deleteCredential (lines 362-380). -/
def deleteCredential (parseURL : String → Option (String × String))
    (st : CMState) (url username : String) : CMState × Bool :=
  match getOrigin parseURL url with
  | none => (st, false)
  | some origin =>
    match mapGet st.credentialsCache origin with
    | none => (st, false)
    | some credentials =>
      let newCredentials := credentials.filter (fun c => c.username != username)
      if newCredentials.isEmpty then
        ({ st with credentialsCache := mapDelete st.credentialsCache origin }, true)
      else
        ({ st with credentialsCache := mapSet st.credentialsCache origin newCredentials }, true)

/-- CredentialManager.deleteAllForOrigin (lines 385-393). -/
def deleteAllForOrigin (parseURL : String → Option (String × String))
    (st : CMState) (url : String) : CMState × Bool :=
  match getOrigin parseURL url with
  | none => (st, false)
  | some origin =>
    ({ st with credentialsCache := mapDelete st.credentialsCache origin }, true)

/-- The in-place mutation of the first matching record performed by
CredentialManager.updateUsername (lines 405-414). -/
def updateFirstUser (oldU newU : String) (now : Nat) : List Cred → List Cred
  | [] => []
  | c :: cs =>
    if c.username == oldU then
      { c with username := newU, updatedAt := now } :: cs
    else
      c :: updateFirstUser oldU newU now cs

/-- CredentialManager.updateUsername (lines 398-418). -/
def updateUsername (parseURL : String → Option (String × String))
    (st : CMState) (url oldU newU : String) (now : Nat) : CMState × Bool :=
  match getOrigin parseURL url with
  | none => (st, false)
  | some origin =>
    match mapGet st.credentialsCache origin with
    | none => (st, false)
    | some credentials =>
      if !(credentials.any (fun c => c.username == oldU)) then (st, false)
      else if credentials.any (fun c => c.username == newU) then (st, false)
      else
        ({ st with credentialsCache :=
             mapSet st.credentialsCache origin (updateFirstUser oldU newU now credentials) },
         true)

/-- CredentialManager.clearAllCredentials (lines 457-461). -/
def clearAllCredentials (st : CMState) : CMState :=
  { st with credentialsCache := [] }

/-- CredentialManager._loadCredentials (lines 166-190).  The file contents,
the decryption routine and JSON.parse are explicit parameters; a throwing
JSON.parse (or a null result of _decrypt) is an Option none, and the
surrounding try/catch makes every failure return the state unchanged, so
no exception reaches the caller of initialisation. -/
def loadCredentials (st : CMState) (file : Option (List Nat))
    (dec : List Nat → Option String)
    (parseJson : String → Option (List (String × List Cred))) : CMState :=
  match file with
  | none => st
  | some data =>
    match dec data with
    | none => st
    | some plain =>
      match parseJson plain with
      | none => st
      | some entries =>
        { st with credentialsCache :=
            entries.foldl (fun m kv => mapSet m kv.1 kv.2) st.credentialsCache }

/-- The public mutating operations of CredentialManager, used to state
that never-save membership survives everything except allowSave. -/
inductive CMOp where
  | save (url username password : String) (now : Nat)
  | deleteCred (url username : String)
  | deleteAll (url : String)
  | updateUser (url oldU newU : String) (now : Nat)
  | clearAll
  | neverSave (url : String)
  | allowSave (url : String)

/-- Dispatch one public operation against the state. -/
def applyOp (parseURL : String → Option (String × String))
    (op : CMOp) (st : CMState) : CMState :=
  match op with
  | .save url u p t => (saveCredential parseURL st url u p t).1
  | .deleteCred url u => (deleteCredential parseURL st url u).1
  | .deleteAll url => (deleteAllForOrigin parseURL st url).1
  | .updateUser url o n t => (updateUsername parseURL st url o n t).1
  | .clearAll => clearAllCredentials st
  | .neverSave url => neverSaveForSite parseURL st url
  | .allowSave url => enableSaveForSite parseURL st url

/-- A concrete instance of the platform URL parser covering the URLs used
in witnesses, with the protocol/host split the WHATWG parser produces. -/
def demoURL : String → Option (String × String)
  | "https://example.com/login" => some ("https:", "example.com")
  | "https://example.com/" => some ("https:", "example.com")
  | _ => none

/-! ## Crypto envelope (CredentialManager._encrypt / _decrypt)

The AES-256-GCM primitive of the platform (crypto.createCipheriv and
createDecipheriv) is modelled as an abstract authenticated cipher: an
encryption map, an authentication-tag map, and a decryption map that
returns none when tag verification throws.  Byte buffers are lists of
naturals. -/

/-- The platform's authenticated symmetric cipher, as consumed by the
fallback path: enc/tag take key, iv and the utf8 plaintext; dec takes
key, iv, tag and ciphertext and fails (none) when verification throws. -/
structure AEAD where
  enc : List Nat → List Nat → String → List Nat
  tag : List Nat → List Nat → String → List Nat
  dec : List Nat → List Nat → List Nat → List Nat → Option String

/-- CredentialManager._encrypt (lines 80-101).  When useOSStorage is set
the OS facility is tried first (osEnc none models the catch arm falling
through); the fallback builds iv ++ authTag ++ ciphertext, with iv the
16 random bytes drawn by the call (passed explicitly). -/
def cmEncrypt (useOSStorage : Bool) (osEnc : String → Option (List Nat))
    (a : AEAD) (key iv : List Nat) (plaintext : String) : List Nat :=
  match (if useOSStorage then osEnc plaintext else none) with
  | some b => b
  | none => iv ++ a.tag key iv plaintext ++ a.enc key iv plaintext

/-- CredentialManager._decrypt (lines 106-133).  The OS facility is tried
first when useOSStorage is set; the fallback slices the buffer into
iv = [0,16), authTag = [16,32), ciphertext = [32,..) and decrypts, the
catch arm returning null becoming none. -/
def cmDecrypt (useOSStorage : Bool) (osDec : List Nat → Option String)
    (a : AEAD) (key : List Nat) (encryptedData : List Nat) : Option String :=
  match (if useOSStorage then osDec encryptedData else none) with
  | some s => some s
  | none =>
    a.dec key (encryptedData.take 16) ((encryptedData.drop 16).take 16)
      (encryptedData.drop 32)

/-- A concrete toy instance of the authenticated cipher, used to witness
the envelope theorems on explicit inputs: the ciphertext is the code-point
sequence of the plaintext and the tag is sixteen zero bytes. -/
def toyAEAD : AEAD where
  enc := fun _ _ pt => pt.toList.map Char.toNat
  tag := fun _ _ _ => List.replicate 16 0
  dec := fun _ _ tg ct =>
    if tg = List.replicate 16 0 then
      some (String.mk (ct.map Char.ofNat))
    else
      none

/-! ## A small regular-expression engine

The source's BLOCK_PATTERNS and youtubeAdPatterns are JavaScript regex
literals built only from literal characters, the character classes
[?&], [_-] and [a-z], the wildcard dot, option (?) and Kleene star.
They are embedded with a standard derivative-based matcher; RegExp.test
is unanchored search. -/

/-- Regular expressions over characters. -/
inductive RE where
  | fail : RE
  | eps : RE
  | chr : Char → RE
  | cls : List Char → RE
  | dot : RE
  | alt : RE → RE → RE
  | cat : RE → RE → RE
  | star : RE → RE

/-- Does the expression accept the empty word? -/
def RE.nullable : RE → Bool
  | .fail => false
  | .eps => true
  | .chr _ => false
  | .cls _ => false
  | .dot => false
  | .alt a b => a.nullable || b.nullable
  | .cat a b => a.nullable && b.nullable
  | .star _ => true

/-- Brzozowski derivative with respect to one character. -/
def RE.deriv : RE → Char → RE
  | .fail, _ => .fail
  | .eps, _ => .fail
  | .chr c, x => if c == x then .eps else .fail
  | .cls cs, x => if cs.contains x then .eps else .fail
  | .dot, _ => .eps
  | .alt a b, x => .alt (a.deriv x) (b.deriv x)
  | .cat a b, x =>
    if a.nullable then .alt (.cat (a.deriv x) b) (b.deriv x)
    else .cat (a.deriv x) b
  | .star a, x => .cat (a.deriv x) (.star a)

/-- Does some (possibly empty) leading segment of the word match? -/
def matchesAhead : RE → List Char → Bool
  | r, [] => r.nullable
  | r, c :: cs => r.nullable || matchesAhead (r.deriv c) cs

/-- Unanchored search, the semantics of RegExp.prototype.test: the
expression matches some contiguous segment of the word. -/
def reSearch (r : RE) : List Char → Bool
  | [] => r.nullable
  | c :: cs => matchesAhead r (c :: cs) || reSearch r cs

/-- Literal word as a regular expression. -/
def RE.lit (s : String) : RE :=
  s.toList.foldr (fun c r => RE.cat (RE.chr c) r) RE.eps

/-- The ? postfix operator. -/
def RE.opt (r : RE) : RE := RE.alt RE.eps r

/-- The .* fragment. -/
def RE.anyStar : RE := RE.star RE.dot

/-- The [a-z] character class. -/
def RE.lowAZ : RE := RE.cls ("abcdefghijklmnopqrstuvwxyz".toList)

/-- The [?&] character class. -/
def RE.qAmp : RE := RE.cls ['?', '&']

/-- The [_-]? fragment. -/
def RE.usDash : RE := RE.opt (RE.cls ['_', '-'])

/-- Sequence of three fragments. -/
def RE.cat3 (a b c : RE) : RE := RE.cat a (RE.cat b c)

/-- One entry of BLOCK_PATTERNS: the regex together with its /i flag
(the source mixes flagged and unflagged literals). -/
structure JsPattern where
  ci : Bool
  re : RE

/-- RegExp.prototype.test as applied at line 1295: patterns carrying the
/i flag behave, on the ASCII inputs at hand, like matching against the
lowercased URL (every literal in the lists is already lowercase). -/
def patTest (p : JsPattern) (url : String) : Bool :=
  reSearch p.re (if p.ci then lowerL url.toList else url.toList)

/-- Case-insensitive literal pattern (the /i flag). -/
def pci (s : String) : JsPattern := ⟨true, RE.lit s⟩

/-- Case-sensitive literal pattern (no flag). -/
def pcs (s : String) : JsPattern := ⟨false, RE.lit s⟩

/-! ## Static block lists (src/main.js) -/

/-- AD_DOMAINS (src/main.js lines 859-976), in source order.  Note the
en_US entry keeps its original capitalisation, exactly as in the source. -/
def AD_DOMAINS : List String := [
  "doubleclick.net",
  "googlesyndication.com",
  "googleadservices.com",
  "google-analytics.com",
  "googletagmanager.com",
  "googletagservices.com",
  "adservice.google.com",
  "pagead2.googlesyndication.com",
  "tpc.googlesyndication.com",
  "youtubekids.com",
  "facebook.com/tr",
  "connect.facebook.net/en_US/fbevents",
  "pixel.facebook.com",
  "an.facebook.com",
  "amazon-adsystem.com",
  "aax.amazon-adsystem.com",
  "fls-na.amazon-adsystem.com",
  "bat.bing.com",
  "ads.microsoft.com",
  "ads-twitter.com",
  "analytics.twitter.com",
  "static.ads-twitter.com",
  "adnxs.com",
  "advertising.com",
  "adsrvr.org",
  "adroll.com",
  "criteo.com",
  "criteo.net",
  "outbrain.com",
  "taboola.com",
  "mgid.com",
  "revcontent.com",
  "zergnet.com",
  "adcolony.com",
  "admob.com",
  "applovin.com",
  "unity3d.com/webview",
  "unityads.unity3d.com",
  "mopub.com",
  "vungle.com",
  "chartboost.com",
  "inmobi.com",
  "pubmatic.com",
  "rubiconproject.com",
  "openx.net",
  "spotxchange.com",
  "smartadserver.com",
  "media.net",
  "contextweb.com",
  "bidswitch.net",
  "casalemedia.com",
  "lijit.com",
  "sovrn.com",
  "sharethrough.com",
  "triplelift.com",
  "indexexchange.com",
  "scorecardresearch.com",
  "quantserve.com",
  "segment.io",
  "segment.com",
  "mixpanel.com",
  "amplitude.com",
  "hotjar.com",
  "fullstory.com",
  "mouseflow.com",
  "crazyegg.com",
  "clicktale.com",
  "optimizely.com",
  "omtrdc.net",
  "demdex.net",
  "bluekai.com",
  "krxd.net",
  "exelator.com",
  "tapad.com",
  "rlcdn.com",
  "liveramp.com",
  "adsymptotic.com",
  "newrelic.com",
  "nr-data.net",
  "propellerads.com",
  "popcash.net",
  "popads.net",
  "exoclick.com",
  "juicyads.com",
  "trafficjunky.com",
  "clickadu.com",
  "hilltopads.com",
  "imasdk.googleapis.com",
  "static.doubleclick.net",
  "ad.doubleclick.net",
  "pubads.g.doubleclick.net",
  "pixel.wp.com",
  "stats.wp.com",
  "pixel.quantserve.com"]

/-- BLOCK_PATTERNS (src/main.js lines 979-1098), in source order, each
with its /i flag.  The non-literal regex fragments are spelt with the
combinators above. -/
def BLOCK_PATTERNS : List JsPattern := [
  pci ("/ads/"),
  pci ("/ad/"),
  pci ("/advertisement"),
  pci ("/advert"),
  ⟨true, RE.cat3 (RE.lit ("/banner")) RE.usDash (RE.lit ("ad"))⟩,
  ⟨true, RE.cat3 (RE.lit ("/pop")) RE.usDash (RE.lit ("under"))⟩,
  ⟨true, RE.cat3 (RE.lit ("/pop")) RE.usDash (RE.lit ("up"))⟩,
  ⟨true, RE.cat3 (RE.lit (".gif?")) RE.anyStar (RE.lit ("ad"))⟩,
  pci ("/sponsored"),
  pci ("/tracking"),
  pci ("/tracker"),
  pci ("/pixel."),
  pci ("/beacon"),
  pci ("/analytics.js"),
  pci ("/gtag/js"),
  pci ("/gtm.js"),
  ⟨true, RE.cat3 (RE.lit ("ad")) RE.usDash (RE.lit ("server"))⟩,
  pci ("adserv"),
  pci ("doubleclick"),
  pci ("/pagead/"),
  pci ("/adsbygoogle"),
  pci ("google_ads"),
  pci ("prebid"),
  pci ("/outbrain"),
  pci ("/taboola"),
  pci ("/mgid"),
  ⟨true, RE.cat RE.qAmp (RE.lit ("ad_"))⟩,
  ⟨true, RE.cat RE.qAmp (RE.lit ("dae_"))⟩,
  ⟨true, RE.cat RE.qAmp (RE.lit ("投放 "))⟩,
  pci ("/api/stats/ads"),
  pci ("/get_midroll_info"),
  pci ("/player_ads"),
  pci ("/ads.js"),
  pci ("/ad_status"),
  pci ("/youtubei/v1/ads"),
  pci ("/v1/postpublish"),
  pci ("/ptracking"),
  pci ("/attribution"),
  pci ("/set_adsense_visiblity"),
  pci ("/ivs/set"),
  pci ("/drm_license"),
  pci ("/videotagsessio"),
  ⟨true, RE.cat3 (RE.lit ("/watermark/")) RE.anyStar (RE.lit ("ad"))⟩,
  pcs ("ytad"),
  pcs ("youtubeads"),
  pcs ("video_ad"),
  pcs ("adsegment"),
  pci ("/ad-stream"),
  pci ("/preroll"),
  pci ("/midroll"),
  pci ("/postroll"),
  pcs ("adfmt"),
  pcs ("adfmtc"),
  pci ("/htmlad.swf"),
  ⟨true, RE.cat3 (RE.lit ("/ad/")) (RE.star RE.lowAZ) (RE.lit (".js"))⟩,
  pci ("/pubads"),
  pci ("/gpt/pubads"),
  pci ("/companion_ad"),
  pcs ("/vast"),
  pcs ("/vmap"),
  pci ("/ima3"),
  pci ("/imasdk"),
  pcs ("/dai"),
  ⟨true, RE.cat3 (RE.lit ("/oembed")) RE.anyStar (RE.lit ("ad"))⟩,
  pci ("/adbreak"),
  pci ("/adstart"),
  pci ("/adtimeshift"),
  pci ("/adpause"),
  pci ("/adresume"),
  pci ("/adclick"),
  pci ("/adimpression"),
  pcs ("/adview"),
  pcs ("/advol"),
  pcs ("/adver"),
  pcs ("/adframe"),
  pcs ("/adfeed"),
  pcs ("/adlog"),
  pcs ("/adcount"),
  pcs ("/adcountdown"),
  pcs ("/adsystem"),
  pcs ("/adsense"),
  pcs ("/adsinfo"),
  pcs ("/adspeed"),
  pcs ("/adstory"),
  pcs ("/adtest"),
  pcs ("/adtrack"),
  pcs ("/adurl"),
  pcs ("/adverify"),
  pcs ("/adwatch"),
  pcs ("/adzone"),
  pcs ("/adword"),
  pcs ("/adwork"),
  pcs ("/sponsored_search"),
  pcs ("/product_ads"),
  pcs ("/shopping_ads"),
  pcs ("/display_ads"),
  pcs ("/text_ads"),
  pcs ("/link_ads"),
  pcs ("/video_ads"),
  pcs ("/instream_ads"),
  pcs ("/preroll_ads"),
  pcs ("/overlay_ads"),
  pcs ("/banner_ads"),
  pcs ("/sticky_ads"),
  pcs ("/popup_ads"),
  pcs ("/interstitial_ads"),
  pcs ("/native_ads"),
  pcs ("/native_ad"),
  pcs ("/content_ads"),
  pcs ("/contextual_ads"),
  pcs ("/matched_content"),
  pcs ("/custom_ads"),
  pcs ("/house_ads"),
  pcs ("/remnant_ads"),
  pcs ("/backfill_ads"),
  pcs ("/deadnet_ads")]

/-- youtubeAdPatterns (src/main.js lines 1325-1412), in source order.
These are tested against the already-lowercased URL (line 1415), so the
flags are irrelevant and they are kept as plain expressions. -/
def youtubeAdPatterns : List RE := [
  RE.cat RE.qAmp (RE.lit ("ad_")),
  RE.cat RE.qAmp (RE.lit ("dae_")),
  RE.cat RE.qAmp (RE.lit ("投放")),
  RE.lit ("/api/stats/ads"),
  RE.lit ("/get_midroll_info"),
  RE.lit ("/player_ads"),
  RE.lit ("/ads.js"),
  RE.lit ("/ad_status"),
  RE.lit ("/youtubei/v1/ads"),
  RE.lit ("/v1/postpublish"),
  RE.lit ("/ptracking"),
  RE.lit ("/attribution"),
  RE.lit ("/set_adsense_visiblity"),
  RE.lit ("/ivs/set"),
  RE.lit ("/drm_license"),
  RE.lit ("/videotagsessio"),
  RE.cat3 (RE.lit ("/watermark/")) RE.anyStar (RE.lit ("ad")),
  RE.lit ("ytad"),
  RE.lit ("youtubeads"),
  RE.lit ("video_ad"),
  RE.lit ("adsegment"),
  RE.lit ("/ad-stream"),
  RE.lit ("/preroll"),
  RE.lit ("/midroll"),
  RE.lit ("/postroll"),
  RE.lit ("adfmt"),
  RE.lit ("adfmtc"),
  RE.lit ("/htmlad.swf"),
  RE.cat3 (RE.lit ("/ad/")) (RE.star RE.lowAZ) (RE.lit (".js")),
  RE.lit ("/pubads"),
  RE.lit ("/gpt/pubads"),
  RE.lit ("/companion_ad"),
  RE.lit ("/vast"),
  RE.lit ("/vmap"),
  RE.lit ("/ima3"),
  RE.lit ("/imasdk"),
  RE.lit ("/dai"),
  RE.cat3 (RE.lit ("/oembed")) RE.anyStar (RE.lit ("ad")),
  RE.lit ("/adbreak"),
  RE.lit ("/adstart"),
  RE.lit ("/adtimeshift"),
  RE.lit ("/adpause"),
  RE.lit ("/adresume"),
  RE.lit ("/adclick"),
  RE.lit ("/adimpression"),
  RE.lit ("/adview"),
  RE.lit ("/adsystem"),
  RE.lit ("/adsense"),
  RE.lit ("/adsinfo"),
  RE.lit ("/adspeed"),
  RE.lit ("/adstory"),
  RE.lit ("/adtest"),
  RE.lit ("/adtrack"),
  RE.lit ("/adurl"),
  RE.lit ("/adverify"),
  RE.lit ("/adwatch"),
  RE.lit ("/adzone"),
  RE.cat3 (RE.lit ("/ptracking?")) RE.anyStar (RE.lit ("video_id")),
  RE.lit ("/attribution?"),
  RE.lit ("/get_ad_signals"),
  RE.lit ("/ad_frag"),
  RE.cat3 (RE.lit ("/ads/")) RE.anyStar (RE.lit (".js")),
  RE.cat3 (RE.lit ("/creative/")) RE.anyStar (RE.lit (".js")),
  RE.lit ("/load_ad"),
  RE.lit ("/load_ads"),
  RE.lit ("/show_ad"),
  RE.lit ("/show_ads"),
  RE.lit ("/trigger_ad"),
  RE.lit ("/log_ad"),
  RE.lit ("/ping_ad"),
  RE.lit ("/ping_ads"),
  RE.lit ("/track_ad"),
  RE.lit ("/track_ads")]

/-! ## AdBlocker state (src/main.js lines 1231-1509)

The localStorage cell named adBlockerSettings is modelled as the
storedSettings component: saveSettings writes the structured value the
source serialises, loadSettings reads it back.  The decision functions
consume the platform URL parser as an explicit hostname extractor. -/

/-- The JSON object written by AdBlocker.saveSettings (lines 1260-1264). -/
structure StoredSettings where
  enabled : Bool
  whitelist : List String
  totalBlocked : Nat
deriving DecidableEq

/-- The state of an AdBlocker instance (constructor, lines 1232-1241),
together with the settings cell it persists to. -/
structure AdBlocker where
  enabled : Bool
  totalBlocked : Nat
  sessionBlocked : Nat
  blockedByTab : List (String × Nat)
  whitelist : List String
  storedSettings : Option StoredSettings
deriving DecidableEq

/-- AdBlocker.saveSettings (lines 1258-1268): persist enabled flag,
whitelist array and total counter, in full, immediately. -/
def saveSettings (ab : AdBlocker) : AdBlocker :=
  let s : StoredSettings :=
    { enabled := ab.enabled, whitelist := ab.whitelist,
      totalBlocked := ab.totalBlocked }
  { ab with storedSettings := some s }

/-- AdBlocker.loadSettings (lines 1243-1256): apply the stored settings
when the cell holds one, else leave the defaults. -/
def loadSettings (ab : AdBlocker) : AdBlocker :=
  match ab.storedSettings with
  | none => ab
  | some s =>
    { ab with enabled := s.enabled, whitelist := s.whitelist,
              totalBlocked := s.totalBlocked }

/-- The field initialisers of the AdBlocker constructor, before
loadSettings runs: enabled, zero counters, empty whitelist. -/
def adBlockerDefaults (stored : Option StoredSettings) : AdBlocker :=
  { enabled := true, totalBlocked := 0, sessionBlocked := 0,
    blockedByTab := [], whitelist := [], storedSettings := stored }

/-- A freshly constructed AdBlocker over a given settings cell
(constructor = defaults then loadSettings). -/
def adBlockerNew (stored : Option StoredSettings) : AdBlocker :=
  loadSettings (adBlockerDefaults stored)

/-- AdBlocker.isWhitelisted (lines 1440-1447): hostname of the URL is in
the whitelist; a URL the platform parser rejects is never whitelisted
(the catch arm).  `hostOf` is the platform's hostname extractor. -/
def isWhitelisted (hostOf : String → Option String) (ab : AdBlocker)
    (url : String) : Bool :=
  match hostOf url with
  | some h => ab.whitelist.contains h
  | none => false

/-- AdBlocker.isYouTubeRelated (lines 1314-1433): the YouTube-specific
heuristic.  Consults only the two URLs, never the whitelist. -/
def isYouTubeRelated (url pageUrl : String) : Bool :=
  let urlLower := lowerL url.toList
  let isYouTubeDomain :=
    listIncludes ("youtube.com".toList) urlLower ||
    listIncludes ("googlevideo.com".toList) urlLower
  if !isYouTubeDomain then false
  else if youtubeAdPatterns.any (fun r => reSearch r urlLower) then true
  else if (listIncludes ("/youtubei/v1/player".toList) urlLower ||
           listIncludes ("/api/player".toList) urlLower)
          && (pageUrl != "" && listIncludes ("youtube.com".toList) pageUrl.toList)
          && (listIncludes ("ad".toList) urlLower ||
              listIncludes ("adformat".toList) urlLower) then true
  else false

/-- The whitelist-independent tail of AdBlocker.shouldBlock
(lines 1284-1305): domain blocklist, then regex pattern list, then the
YouTube heuristic.  This part of the body reads no instance state. -/
def shouldBlockCore (url pageUrl : String) : Bool :=
  let urlLower := lowerL url.toList
  if AD_DOMAINS.any (fun d => listIncludes d.toList urlLower) then true
  else if BLOCK_PATTERNS.any (fun p => patTest p url) then true
  else if isYouTubeRelated url pageUrl then true
  else false

/-- AdBlocker.shouldBlock (lines 1276-1306): disabled means allow;
a truthy (non-empty) page URL whose hostname is whitelisted means allow;
otherwise the decision is shouldBlockCore. -/
def shouldBlock (hostOf : String → Option String) (ab : AdBlocker)
    (url pageUrl : String) : Bool :=
  if !ab.enabled then false
  else if pageUrl != "" && isWhitelisted hostOf ab pageUrl then false
  else shouldBlockCore url pageUrl

/-- AdBlocker.addToWhitelist (lines 1453-1456). -/
def addToWhitelist (ab : AdBlocker) (domain : String) : AdBlocker :=
  saveSettings { ab with whitelist := addToSet ab.whitelist domain }

/-- AdBlocker.removeFromWhitelist (lines 1462-1465). -/
def removeFromWhitelist (ab : AdBlocker) (domain : String) : AdBlocker :=
  saveSettings { ab with whitelist := ab.whitelist.filter (fun x => x != domain) }

/-- AdBlocker.toggle (lines 1471-1475): flip, persist, return new flag. -/
def toggle (ab : AdBlocker) : AdBlocker × Bool :=
  let flipped : AdBlocker := { ab with enabled := !ab.enabled }
  (saveSettings flipped, flipped.enabled)

/-- AdBlocker.recordBlocked (lines 1481-1492): bump session, total and
per-tab counters; persist only when the new session count is a multiple
of ten ("save periodically, every 10 blocks"). -/
def recordBlocked (ab : AdBlocker) (tabId : String) : AdBlocker :=
  let bumped : AdBlocker :=
    { ab with
      sessionBlocked := ab.sessionBlocked + 1,
      totalBlocked := ab.totalBlocked + 1,
      blockedByTab :=
        mapSet ab.blockedByTab tabId ((mapGet ab.blockedByTab tabId).getD 0 + 1) }
  if bumped.sessionBlocked % 10 == 0 then saveSettings bumped else bumped

/-- The cancel decision of the onBeforeRequest interception handler
(src/main.js lines 591-629): disabled or a mainFrame (top-level
navigation) resource type is never cancelled; every other request is
cancelled exactly when shouldBlock says so, with the request's referrer,
defaulting to the empty string, passed as the page URL. -/
def onBeforeRequestCancel (hostOf : String → Option String) (ab : AdBlocker)
    (url resourceType : String) (referrer : Option String) : Bool :=
  if !ab.enabled then false
  else if resourceType == "mainFrame" then false
  else shouldBlock hostOf ab url (referrer.getD (""))

/-- A concrete hostname extractor covering the URLs used in witnesses,
giving what the WHATWG parser's hostname property gives. -/
def demoHost : String → Option String
  | "https://news.example/" => some ("news.example")
  | "https://doubleclick.net/ads/x.js" => some ("doubleclick.net")
  | _ => none

/-- A concrete AdBlocker state: enabled, fresh counters, with the
news.example hostname whitelisted. -/
def demoAB : AdBlocker :=
  { enabled := true, totalBlocked := 0, sessionBlocked := 0,
    blockedByTab := [], whitelist := [("news.example")],
    storedSettings := none }

/-- Plain constructor for the persisted settings value. -/
def mkSettings (enabled : Bool) (whitelist : List String) (totalBlocked : Nat) :
    StoredSettings :=
  { enabled := enabled, whitelist := whitelist, totalBlocked := totalBlocked }

/-! ## Helper lemmas -/

theorem mapGet_mapSet_self {α : Type} (m : List (String × α)) (k : String) (v : α) :
    mapGet (mapSet m k v) k = some v := by
  induction m with
  | nil => simp [mapSet, mapGet]
  | cons hd tl ih =>
    obtain ⟨k0, v0⟩ := hd
    by_cases h : (k0 == k) = true
    · simp [mapSet, h, mapGet]
    · simp only [mapSet, h, Bool.false_eq_true, if_false, mapGet, ih]

theorem saveList_exists_mem (u p : String) (t : Nat) (l : List Cred) :
    ∃ c ∈ saveList u p t l, c.username = u ∧ c.password = p := by
  induction l with
  | nil =>
    exact ⟨{ username := u, password := p, createdAt := t, updatedAt := t },
           by simp [saveList], rfl, rfl⟩
  | cons c cs ih =>
    by_cases h : (c.username == u) = true
    · exact ⟨{ username := u, password := p, createdAt := c.createdAt, updatedAt := t },
             by simp [saveList, h], rfl, rfl⟩
    · obtain ⟨d, hd, hu, hp⟩ := ih
      refine ⟨d, ?_, hu, hp⟩
      simp only [saveList, h, Bool.false_eq_true, if_false]
      exact List.mem_cons_of_mem _ hd

theorem saveList_filter_of_nil (u p : String) (t : Nat) (l : List Cred)
    (h : l.filter (fun c => c.username == u) = []) :
    (saveList u p t l).filter (fun c => c.username == u) =
      [{ username := u, password := p, createdAt := t, updatedAt := t }] := by
  induction l with
  | nil => simp [saveList]
  | cons c cs ih =>
    rw [List.filter_cons] at h
    cases hc : (c.username == u) with
    | true => rw [hc] at h; simp at h
    | false =>
      rw [hc] at h
      simp only [Bool.false_eq_true, if_false] at h
      simp only [saveList, hc, Bool.false_eq_true, if_false]
      rw [List.filter_cons, hc]
      simp only [Bool.false_eq_true, if_false]
      exact ih h

theorem saveList_filter_of_singleton (u p : String) (t : Nat) (l : List Cred)
    (c0 : Cred) (h : l.filter (fun c => c.username == u) = [c0]) :
    (saveList u p t l).filter (fun c => c.username == u) =
      [{ username := u, password := p, createdAt := c0.createdAt, updatedAt := t }] := by
  induction l with
  | nil => simp at h
  | cons c cs ih =>
    rw [List.filter_cons] at h
    cases hc : (c.username == u) with
    | true =>
      rw [hc] at h
      simp only [if_true] at h
      obtain ⟨hc0, hcs⟩ := List.cons_eq_cons.mp h
      subst hc0
      simp only [saveList, hc, if_true]
      rw [List.filter_cons]
      simp only [beq_self_eq_true, if_true]
      rw [hcs]
    | false =>
      rw [hc] at h
      simp only [Bool.false_eq_true, if_false] at h
      simp only [saveList, hc, Bool.false_eq_true, if_false]
      rw [List.filter_cons, hc]
      simp only [Bool.false_eq_true, if_false]
      exact ih h

theorem contains_addToSet_self (s : List String) (x : String) :
    (addToSet s x).contains x = true := by
  unfold addToSet
  split
  case isTrue h => exact h
  case isFalse h => simp

theorem contains_addToSet_mono (s : List String) (x o : String)
    (h : s.contains o = true) : (addToSet s x).contains o = true := by
  have hm : o ∈ s := by simpa using h
  unfold addToSet
  split
  · exact h
  · simp [hm]

theorem contains_filter_ne (s : List String) (o y : String)
    (h : s.contains o = true) (hne : o ≠ y) :
    (s.filter (fun z => z != y)).contains o = true := by
  have hm : o ∈ s := by simpa using h
  simp [List.mem_filter, hm, hne]

theorem saveCredential_keeps_neverSave
    (parseURL : String → Option (String × String)) (st : CMState)
    (url u p : String) (t : Nat) :
    (saveCredential parseURL st url u p t).1.neverSaveSites = st.neverSaveSites := by
  unfold saveCredential
  cases getOrigin parseURL url <;> rfl

theorem deleteCredential_keeps_neverSave
    (parseURL : String → Option (String × String)) (st : CMState)
    (url u : String) :
    (deleteCredential parseURL st url u).1.neverSaveSites = st.neverSaveSites := by
  unfold deleteCredential
  cases getOrigin parseURL url with
  | none => rfl
  | some origin =>
    dsimp only
    cases mapGet st.credentialsCache origin with
    | none => rfl
    | some creds =>
      dsimp only
      split <;> rfl

theorem deleteAllForOrigin_keeps_neverSave
    (parseURL : String → Option (String × String)) (st : CMState) (url : String) :
    (deleteAllForOrigin parseURL st url).1.neverSaveSites = st.neverSaveSites := by
  unfold deleteAllForOrigin
  cases getOrigin parseURL url <;> rfl

theorem updateUsername_keeps_neverSave
    (parseURL : String → Option (String × String)) (st : CMState)
    (url oldU newU : String) (t : Nat) :
    (updateUsername parseURL st url oldU newU t).1.neverSaveSites = st.neverSaveSites := by
  unfold updateUsername
  cases getOrigin parseURL url with
  | none => rfl
  | some origin =>
    dsimp only
    cases mapGet st.credentialsCache origin with
    | none => rfl
    | some creds =>
      dsimp only
      split
      · rfl
      · split <;> rfl

theorem applyOp_keeps_neverSave_mem
    (parseURL : String → Option (String × String)) (o : String)
    (st : CMState) (op : CMOp)
    (hmem : st.neverSaveSites.contains o = true)
    (hop : ∀ u', op = CMOp.allowSave u' → getOrigin parseURL u' ≠ some o) :
    (applyOp parseURL op st).neverSaveSites.contains o = true := by
  cases op with
  | save url u p t =>
    simp only [applyOp]
    rw [saveCredential_keeps_neverSave]
    exact hmem
  | deleteCred url u =>
    simp only [applyOp]
    rw [deleteCredential_keeps_neverSave]
    exact hmem
  | deleteAll url =>
    simp only [applyOp]
    rw [deleteAllForOrigin_keeps_neverSave]
    exact hmem
  | updateUser url oldU newU t =>
    simp only [applyOp]
    rw [updateUsername_keeps_neverSave]
    exact hmem
  | clearAll => exact hmem
  | neverSave url =>
    simp only [applyOp]
    unfold neverSaveForSite
    cases getOrigin parseURL url with
    | none => exact hmem
    | some o2 => exact contains_addToSet_mono _ _ _ hmem
  | allowSave url =>
    simp only [applyOp]
    unfold enableSaveForSite
    cases hg : getOrigin parseURL url with
    | none => exact hmem
    | some o2 =>
      refine contains_filter_ne _ _ _ hmem ?_
      intro he
      exact hop url rfl (he ▸ hg)

theorem saveCredential_cache_at
    (parseURL : String → Option (String × String)) (st : CMState)
    (url u p : String) (t : Nat) (origin : String)
    (h : getOrigin parseURL url = some origin) :
    (mapGet (saveCredential parseURL st url u p t).1.credentialsCache origin).getD []
      = saveList u p t ((mapGet st.credentialsCache origin).getD []) := by
  unfold saveCredential
  rw [h]
  dsimp only
  rw [mapGet_mapSet_self]
  rfl

/-! ## Claim theorems -/

/-- Claim C1: credential round-trip.  For every URL whose origin parses
and every username/secret pair, saveCredential followed by the autofill
getter getCredentials on the same URL yields a record carrying exactly
that username and that secret. -/
theorem save_then_autofill_roundtrip
    (parseURL : String → Option (String × String)) (st : CMState)
    (url username password : String) (now : Nat) (origin : String)
    (h : getOrigin parseURL url = some origin) :
    ∃ r ∈ getCredentials parseURL
        (saveCredential parseURL st url username password now).1 url,
      r.username = username ∧ r.password = password := by
  obtain ⟨c, hc, hcu, hcp⟩ :=
    saveList_exists_mem username password now
      ((mapGet st.credentialsCache origin).getD [])
  refine ⟨{ username := c.username, password := c.password, origin := origin,
            displayName := maskUsername c.username }, ?_, hcu, hcp⟩
  unfold getCredentials
  rw [h]
  dsimp only
  rw [show (saveCredential parseURL st url username password now).1.credentialsCache
        = mapSet st.credentialsCache origin
            (saveList username password now
              ((mapGet st.credentialsCache origin).getD [])) by
      unfold saveCredential; rw [h]]
  rw [mapGet_mapSet_self]
  exact List.mem_map_of_mem _ hc

/-- Witness for C1 at a concrete input. -/
theorem save_then_autofill_roundtrip_witness :
    getOrigin demoURL ("https://example.com/login") = some ("https://example.com") ∧
    ∃ r ∈ getCredentials demoURL
        (saveCredential demoURL CMState.initial ("https://example.com/login")
          ("alice") ("p1") 7).1 ("https://example.com/login"),
      r.username = "alice" ∧ r.password = "p1" :=
  ⟨by decide,
   save_then_autofill_roundtrip demoURL CMState.initial
     ("https://example.com/login") ("alice") ("p1") 7
     ("https://example.com") (by decide)⟩

/-- Claim C2: uniqueness and overwrite semantics.  Starting from a state
holding at most one record for the (origin, username) pair, after a save
with secret p1 at time t1 the origin's store holds exactly one record for
the username — with secret p1, some createdAt ca and updatedAt t1 — and
after a second save with secret p2 at time t2 it holds exactly one record
for the username, with the second secret p2, the same createdAt ca set by
the first save, and updatedAt refreshed to t2. -/
theorem save_twice_overwrites
    (parseURL : String → Option (String × String)) (st : CMState)
    (url u p1 p2 : String) (t1 t2 : Nat) (origin : String)
    (h : getOrigin parseURL url = some origin)
    (hu : (((mapGet st.credentialsCache origin).getD []).filter
            (fun c => c.username == u)).length ≤ 1) :
    ∃ ca,
      ((mapGet (saveCredential parseURL st url u p1 t1).1.credentialsCache
          origin).getD []).filter (fun c => c.username == u)
        = [{ username := u, password := p1, createdAt := ca, updatedAt := t1 }] ∧
      ((mapGet (saveCredential parseURL
            (saveCredential parseURL st url u p1 t1).1 url u p2 t2).1.credentialsCache
          origin).getD []).filter (fun c => c.username == u)
        = [{ username := u, password := p2, createdAt := ca, updatedAt := t2 }] := by
  rw [saveCredential_cache_at parseURL _ url u p2 t2 origin h,
      saveCredential_cache_at parseURL st url u p1 t1 origin h]
  rcases hfl : ((mapGet st.credentialsCache origin).getD []).filter
      (fun c => c.username == u) with _ | ⟨c0, _ | ⟨c1, rest2⟩⟩
  · refine ⟨t1, saveList_filter_of_nil u p1 t1 _ hfl, ?_⟩
    have h1 := saveList_filter_of_nil u p1 t1 _ hfl
    exact saveList_filter_of_singleton u p2 t2 _ _ h1
  · refine ⟨c0.createdAt, saveList_filter_of_singleton u p1 t1 _ c0 hfl, ?_⟩
    have h1 := saveList_filter_of_singleton u p1 t1 _ c0 hfl
    exact saveList_filter_of_singleton u p2 t2 _
      { username := u, password := p1, createdAt := c0.createdAt, updatedAt := t1 } h1
  · rw [hfl] at hu
    simp at hu

/-- Witness for C2 at a concrete input. -/
theorem save_twice_overwrites_witness :
    getOrigin demoURL ("https://example.com/login") = some ("https://example.com") ∧
    (((mapGet CMState.initial.credentialsCache ("https://example.com")).getD []).filter
        (fun c => c.username == "alice")).length ≤ 1 ∧
    ∃ ca,
      ((mapGet (saveCredential demoURL CMState.initial ("https://example.com/login")
            ("alice") ("p1") 1).1.credentialsCache ("https://example.com")).getD
          []).filter (fun c => c.username == "alice")
        = [{ username := "alice", password := "p1", createdAt := ca, updatedAt := 1 }] ∧
      ((mapGet (saveCredential demoURL
            (saveCredential demoURL CMState.initial ("https://example.com/login")
              ("alice") ("p1") 1).1 ("https://example.com/login")
            ("alice") ("p2") 2).1.credentialsCache ("https://example.com")).getD
          []).filter (fun c => c.username == "alice")
        = [{ username := "alice", password := "p2", createdAt := ca, updatedAt := 2 }] :=
  ⟨by decide, by decide,
   save_twice_overwrites demoURL CMState.initial ("https://example.com/login")
     ("alice") ("p1") ("p2") 1 2 ("https://example.com") (by decide) (by decide)⟩

/-- Counterexample for C4: on the code, a save with an empty username is
not rejected — saveCredential returns true and a record with the empty
username is inserted into the store. -/
theorem empty_save_not_rejected :
    (saveCredential demoURL CMState.initial ("https://example.com/login")
        ("") ("p1") 5).2 = true ∧
    (saveCredential demoURL CMState.initial ("https://example.com/login")
        ("") ("p1") 5).1.credentialsCache
      = [(("https://example.com"),
          [{ username := "", password := "p1", createdAt := 5, updatedAt := 5 }])] := by
  decide

/-- Claim C4 as amended: saveCredential performs no emptiness validation;
a save whose username or secret is empty succeeds like any other save —
it returns true and the store afterwards holds a record with exactly that
(possibly empty) username and secret for the URL's origin. -/
theorem empty_save_accepted
    (parseURL : String → Option (String × String)) (st : CMState)
    (url username password : String) (now : Nat) (origin : String)
    (h : getOrigin parseURL url = some origin)
    (_hempty : username = "" ∨ password = "") :
    (saveCredential parseURL st url username password now).2 = true ∧
    ∃ c ∈ (mapGet (saveCredential parseURL st url username password
          now).1.credentialsCache origin).getD [],
      c.username = username ∧ c.password = password := by
  constructor
  · unfold saveCredential
    rw [h]
  · rw [saveCredential_cache_at parseURL st url username password now origin h]
    exact saveList_exists_mem username password now _

/-- Witness for the amended C4 at a concrete input. -/
theorem empty_save_accepted_witness :
    getOrigin demoURL ("https://example.com/login") = some ("https://example.com") ∧
    (("" : String) = "" ∨ ("p1" : String) = "") ∧
    ((saveCredential demoURL CMState.initial ("https://example.com/login")
        ("") ("p1") 5).2 = true ∧
     ∃ c ∈ (mapGet (saveCredential demoURL CMState.initial
           ("https://example.com/login") ("") ("p1")
           5).1.credentialsCache ("https://example.com")).getD [],
       c.username = "" ∧ c.password = "p1") :=
  ⟨by decide, Or.inl rfl,
   empty_save_accepted demoURL CMState.initial ("https://example.com/login")
     ("") ("p1") 5 ("https://example.com") (by decide) (Or.inl rfl)⟩

/-- Claim C5: never-save gating.  For a URL whose origin parses:
shouldPromptSave is false exactly when the origin is in the never-save
set; after neverSaveForSite it is false; membership in the never-save set
(hence the false answer) survives every public operation that is not an
allowSave resolving to that origin; and neverSaveForSite leaves every
stored credential record unchanged. -/
theorem neverSave_gating
    (parseURL : String → Option (String × String)) (st : CMState)
    (url origin : String)
    (h : getOrigin parseURL url = some origin) :
    (shouldPromptSave parseURL st url = false ↔
       st.neverSaveSites.contains origin = true) ∧
    shouldPromptSave parseURL (neverSaveForSite parseURL st url) url = false ∧
    (∀ st2 : CMState, ∀ op : CMOp,
       st2.neverSaveSites.contains origin = true →
       (∀ u2, op = CMOp.allowSave u2 → getOrigin parseURL u2 ≠ some origin) →
       (applyOp parseURL op st2).neverSaveSites.contains origin = true) ∧
    (neverSaveForSite parseURL st url).credentialsCache = st.credentialsCache := by
  refine ⟨?_, ?_, ?_, ?_⟩
  · unfold shouldPromptSave
    rw [h]
    simp
  · unfold shouldPromptSave neverSaveForSite
    rw [h]
    dsimp only
    rw [contains_addToSet_self]
    rfl
  · intro st2 op hmem hop
    exact applyOp_keeps_neverSave_mem parseURL origin st2 op hmem hop
  · unfold neverSaveForSite
    rw [h]

/-- Witness for C5 at a concrete input. -/
theorem neverSave_gating_witness :
    getOrigin demoURL ("https://example.com/login") = some ("https://example.com") ∧
    ((shouldPromptSave demoURL CMState.initial ("https://example.com/login") = false ↔
        CMState.initial.neverSaveSites.contains ("https://example.com") = true) ∧
     shouldPromptSave demoURL
       (neverSaveForSite demoURL CMState.initial ("https://example.com/login"))
       ("https://example.com/login") = false ∧
     (∀ st2 : CMState, ∀ op : CMOp,
        st2.neverSaveSites.contains ("https://example.com") = true →
        (∀ u2, op = CMOp.allowSave u2 →
           getOrigin demoURL u2 ≠ some ("https://example.com")) →
        (applyOp demoURL op st2).neverSaveSites.contains
          ("https://example.com") = true) ∧
     (neverSaveForSite demoURL CMState.initial
         ("https://example.com/login")).credentialsCache
       = CMState.initial.credentialsCache) :=
  ⟨by decide,
   neverSave_gating demoURL CMState.initial ("https://example.com/login")
     ("https://example.com") (by decide)⟩

/-- Claim C6: graceful degradation on a corrupt blob.  _loadCredentials
is a total function of the file contents (its try/catch is the Option
plumbing), and whenever the stored blob fails decryption (none) or
parsing (JSON.parse throwing), the load completes with the in-memory
cache still empty. -/
theorem corrupt_blob_load_empty (st : CMState) (data : List Nat)
    (dec : List Nat → Option String)
    (parseJson : String → Option (List (String × List Cred)))
    (hst : st.credentialsCache = [])
    (hfail : dec data = none ∨ ∀ s, dec data = some s → parseJson s = none) :
    (loadCredentials st (some data) dec parseJson).credentialsCache = [] := by
  unfold loadCredentials
  dsimp only
  cases hd : dec data with
  | none => exact hst
  | some s =>
    rcases hfail with hf | hf
    · rw [hd] at hf
      cases hf
    · dsimp only
      rw [hf s hd]
      exact hst

/-- Witness for C6 at a concrete input. -/
theorem corrupt_blob_load_empty_witness :
    CMState.initial.credentialsCache = [] ∧
    ((fun _ : List Nat => (none : Option String)) [7, 7] = none ∨
      ∀ s, (fun _ : List Nat => (none : Option String)) [7, 7] = some s →
        (fun _ : String => (none : Option (List (String × List Cred)))) s = none) ∧
    (loadCredentials CMState.initial (some [7, 7])
        (fun _ => none) (fun _ => none)).credentialsCache = [] :=
  ⟨rfl, Or.inl rfl,
   corrupt_blob_load_empty CMState.initial [7, 7] (fun _ => none)
     (fun _ => none) rfl (Or.inl rfl)⟩

/-- Claim C3: fallback-cipher round-trip.  On the fallback path
(useOSStorage false), for every non-empty plaintext, with the 16-byte
nonce the call draws and an authenticated cipher whose tag is 16 bytes
and whose decryption inverts its encryption at these inputs, decrypting
the encryption returns the plaintext, and the encrypted output is laid
out as nonce, then authentication tag, then ciphertext. -/
theorem fallback_cipher_roundtrip (a : AEAD)
    (osEnc : String → Option (List Nat)) (osDec : List Nat → Option String)
    (key iv : List Nat) (x : String)
    (_hx : x ≠ "")
    (hiv : iv.length = 16)
    (htag : (a.tag key iv x).length = 16)
    (hdec : a.dec key iv (a.tag key iv x) (a.enc key iv x) = some x) :
    cmDecrypt false osDec a key (cmEncrypt false osEnc a key iv x) = some x ∧
    cmEncrypt false osEnc a key iv x = iv ++ a.tag key iv x ++ a.enc key iv x := by
  have henc : cmEncrypt false osEnc a key iv x
      = iv ++ a.tag key iv x ++ a.enc key iv x := rfl
  refine ⟨?_, henc⟩
  rw [henc]
  show a.dec key ((iv ++ a.tag key iv x ++ a.enc key iv x).take 16)
      (((iv ++ a.tag key iv x ++ a.enc key iv x).drop 16).take 16)
      ((iv ++ a.tag key iv x ++ a.enc key iv x).drop 32) = some x
  have hdrop : (iv ++ a.tag key iv x ++ a.enc key iv x).drop 16
      = a.tag key iv x ++ a.enc key iv x := by
    rw [List.append_assoc]
    exact List.drop_left' hiv
  have htake : (iv ++ a.tag key iv x ++ a.enc key iv x).take 16 = iv := by
    rw [List.append_assoc]
    exact List.take_left' hiv
  have hdrop32 : (iv ++ a.tag key iv x ++ a.enc key iv x).drop 32
      = a.enc key iv x := by
    have h2 : ((iv ++ a.tag key iv x ++ a.enc key iv x).drop 16).drop 16
        = (iv ++ a.tag key iv x ++ a.enc key iv x).drop 32 := by
      rw [List.drop_drop]
    rw [← h2, hdrop]
    exact List.drop_left' htag
  rw [htake, hdrop, hdrop32, List.take_left' htag]
  exact hdec

/-- Witness for C3 at a concrete input, over the concrete toy cipher. -/
theorem fallback_cipher_roundtrip_witness :
    ("a" : String) ≠ "" ∧
    (List.replicate 16 0).length = 16 ∧
    (toyAEAD.tag [] (List.replicate 16 0) ("a")).length = 16 ∧
    toyAEAD.dec [] (List.replicate 16 0)
      (toyAEAD.tag [] (List.replicate 16 0) ("a"))
      (toyAEAD.enc [] (List.replicate 16 0) ("a")) = some ("a") ∧
    (cmDecrypt false (fun _ => none) toyAEAD []
        (cmEncrypt false (fun _ => none) toyAEAD [] (List.replicate 16 0) ("a"))
        = some ("a") ∧
     cmEncrypt false (fun _ => none) toyAEAD [] (List.replicate 16 0) ("a")
        = List.replicate 16 0 ++ toyAEAD.tag [] (List.replicate 16 0) ("a")
            ++ toyAEAD.enc [] (List.replicate 16 0) ("a")) :=
  ⟨by decide, by decide, by decide, by decide,
   fallback_cipher_roundtrip toyAEAD (fun _ => none) (fun _ => none) []
     (List.replicate 16 0) ("a") (by decide) (by decide) (by decide) (by decide)⟩

/-- Claim C7: whitelist bypass.  For every request URL and every page URL
whose hostname is in the whitelist (a URL with a hostname is non-empty:
the platform parser rejects the empty string), shouldBlock returns false,
regardless of any domain or pattern match on the request URL. -/
theorem whitelist_bypass (hostOf : String → Option String) (ab : AdBlocker)
    (requestUrl pageUrl hn : String)
    (hhost : hostOf pageUrl = some hn)
    (hwl : ab.whitelist.contains hn = true)
    (hempty : hostOf ("") = none) :
    shouldBlock hostOf ab requestUrl pageUrl = false := by
  have hne : pageUrl ≠ "" := by
    intro heq
    rw [heq, hempty] at hhost
    cases hhost
  have hmem : hn ∈ ab.whitelist := by simpa using hwl
  cases hen : ab.enabled <;>
    simp [shouldBlock, isWhitelisted, hhost, hwl, hmem, hne, hen]

/-- Witness for C7 at a concrete input: with news.example whitelisted, the
doubleclick request from a news.example page is not blocked. -/
theorem whitelist_bypass_witness :
    demoHost ("https://news.example/") = some ("news.example") ∧
    demoAB.whitelist.contains ("news.example") = true ∧
    demoHost ("") = none ∧
    shouldBlock demoHost demoAB ("https://doubleclick.net/ads/x.js")
      ("https://news.example/") = false :=
  ⟨by decide, by decide, by decide,
   whitelist_bypass demoHost demoAB ("https://doubleclick.net/ads/x.js")
     ("https://news.example/") ("news.example")
     (by decide) (by decide) (by decide)⟩

/-- Claim C8: first-party exemption.  The cancel decision of the
onBeforeRequest interception point is false for every mainFrame
(top-level navigation) request, whatever the URL and referrer — so only
subresource requests can ever be cancelled. -/
theorem mainframe_never_cancelled (hostOf : String → Option String)
    (ab : AdBlocker) (url : String) (referrer : Option String) :
    onBeforeRequestCancel hostOf ab url ("mainFrame") referrer = false := by
  cases hen : ab.enabled <;> simp [onBeforeRequestCancel, hen]

/-- Counterexample for C9: on the code, the total blocked counter is not
immediately durable — after one blocked request on a fresh AdBlocker the
in-memory total is 1 while nothing has been persisted at all (saveSettings
runs only every tenth block of a session). -/
theorem recordBlocked_not_immediately_durable :
    (recordBlocked (adBlockerNew none) ("tab-1")).totalBlocked = 1 ∧
    (recordBlocked (adBlockerNew none) ("tab-1")).storedSettings = none := by
  decide

/-- Claim C9 as amended: toggle returns the new enabled state and persists
it immediately; whitelist add and remove persist immediately; recordBlocked
increments the total counter but persists only when the new session count
is a multiple of ten, so durability of totalBlocked lags by up to nine
blocked requests; and a restart (a fresh AdBlocker over the persisted
settings) restores the persisted enabled flag, whitelist and total. -/
theorem blockstate_persistence (ab : AdBlocker) (domain tabId : String)
    (s : StoredSettings) :
    ((toggle ab).2 = !ab.enabled ∧
     (toggle ab).1.storedSettings
       = some (mkSettings (!ab.enabled) ab.whitelist ab.totalBlocked)) ∧
    (addToWhitelist ab domain).storedSettings
      = some (mkSettings ab.enabled (addToSet ab.whitelist domain) ab.totalBlocked) ∧
    (removeFromWhitelist ab domain).storedSettings
      = some (mkSettings ab.enabled (ab.whitelist.filter (fun x => x != domain))
          ab.totalBlocked) ∧
    ((recordBlocked ab tabId).totalBlocked = ab.totalBlocked + 1 ∧
     (recordBlocked ab tabId).storedSettings
       = (if (ab.sessionBlocked + 1) % 10 == 0
          then some (mkSettings ab.enabled ab.whitelist (ab.totalBlocked + 1))
          else ab.storedSettings)) ∧
    ((adBlockerNew (some s)).enabled = s.enabled ∧
     (adBlockerNew (some s)).whitelist = s.whitelist ∧
     (adBlockerNew (some s)).totalBlocked = s.totalBlocked) := by
  refine ⟨⟨rfl, rfl⟩, rfl, rfl, ⟨?_, ?_⟩, rfl, rfl, rfl⟩
  · unfold recordBlocked
    dsimp only
    split <;> rfl
  · unfold recordBlocked
    dsimp only
    split <;> rfl

/-- Claim C10: the whitelist is consulted only for a non-empty page URL.
With an empty page URL the decision is independent of the whitelist
(states agreeing on the enabled flag decide identically); the
interception handler passes a missing referrer as the empty string; and
concretely a doubleclick request with an empty page URL is blocked even
though the issuing page's hostname is whitelisted. -/
theorem empty_pageurl_skips_whitelist (hostOf : String → Option String)
    (ab ab2 : AdBlocker) (url resourceType : String)
    (hen : ab.enabled = ab2.enabled)
    (hrt : resourceType ≠ "mainFrame") :
    shouldBlock hostOf ab url ("") = shouldBlock hostOf ab2 url ("") ∧
    onBeforeRequestCancel hostOf ab url resourceType none
      = shouldBlock hostOf ab url ("") ∧
    shouldBlock demoHost demoAB ("https://doubleclick.net/ads/x.js") ("") = true := by
  refine ⟨?_, ?_, ?_⟩
  · unfold shouldBlock
    rw [hen]
    simp
  · unfold onBeforeRequestCancel
    rw [show ((resourceType == "mainFrame") = false) by simpa using hrt]
    cases hen2 : ab.enabled <;> simp [shouldBlock, hen2]
  · decide

/-- Witness for C10 at a concrete input. -/
theorem empty_pageurl_skips_whitelist_witness :
    demoAB.enabled = demoAB.enabled ∧
    ("script" : String) ≠ "mainFrame" ∧
    (shouldBlock demoHost demoAB ("https://a.example/s.js") ("")
       = shouldBlock demoHost demoAB ("https://a.example/s.js") ("") ∧
     onBeforeRequestCancel demoHost demoAB ("https://a.example/s.js")
       ("script") none
       = shouldBlock demoHost demoAB ("https://a.example/s.js") ("") ∧
     shouldBlock demoHost demoAB ("https://doubleclick.net/ads/x.js") ("") = true) :=
  ⟨rfl, by decide,
   empty_pageurl_skips_whitelist demoHost demoAB demoAB
     ("https://a.example/s.js") ("script") rfl (by decide)⟩

end YourBrowser
